import Mathlib

/-!
Verification of the librealsense streaming-pipeline orchestrator
(`include/librealsense2/hpp/rs_pipeline.hpp`).

The repository ships the `rs2::pipeline` C++ wrapper class, whose methods
forward to the underlying C API (`rs2_start_pipeline`, `rs2_open_pipeline`,
`rs2_enable_pipeline_stream`, ...).  The implementation of that C API is not
part of the sources at hand, so it is modelled here from the design
specification (StreamRequest Set, Configuration Resolver, Device Session,
Frame Synchronizer, Pipeline Controller state machine).  The wrapper methods
themselves — in particular the empty-bodied `reset_config(){}` and the
out-parameter logic of `poll_for_frames` — are embedded directly from the
source header.

Machine integers (stream kinds, formats, sizes, rates, timestamps) are
modelled as `Nat`; errors raised through `error::handle` become an
`Except RsError` result.
-/

/-- Controller lifecycle states of the Pipeline Controller state machine
(spec §4.5): `Created → Configuring → Committed → Streaming → Stopped`,
with `reset` returning to `Created`. -/
inductive CtrlState where
  | Created
  | Configuring
  | Committed
  | Streaming
  | Stopped
deriving DecidableEq, Repr

/-- Error kinds of the orchestrator (spec §7). -/
inductive RsError where
  | InvalidStateError
  | ConfigurationError
  | NoDeviceError
  | DeviceBusyError
  | NotReadyError
  | TimeoutError
  | StoppedError
deriving DecidableEq, Repr

/-- A user stream constraint (spec §3): zero in a numeric field means
"unconstrained / default".  `kind` models `rs2_stream`, `format` models
`rs2_format`. -/
structure StreamRequest where
  kind : Nat
  index : Nat
  width : Nat
  height : Nat
  format : Nat
  framerate : Nat
deriving DecidableEq, Repr

/-- A concrete stream profile of the Resolved Configuration (spec §3):
no wildcards. -/
structure StreamProfile where
  kind : Nat
  index : Nat
  width : Nat
  height : Nat
  format : Nat
  framerate : Nat
deriving DecidableEq, Repr

/-- The uniqueness key of a StreamRequest: (stream kind, stream index). -/
def requestKey (r : StreamRequest) : Nat × Nat := (r.kind, r.index)

/-- The (kind, index) key of a stream profile. -/
def profileKey (p : StreamProfile) : Nat × Nat := (p.kind, p.index)

/-- StreamRequest Set insert (spec §3, §4.1): inserts/overwrites the entry
keyed by (kind, index) — last write wins. -/
def insertRequest (rs : List StreamRequest) (r : StreamRequest) : List StreamRequest :=
  r :: rs.filter (fun q => decide (requestKey q ≠ requestKey r))

/-- Look up the effective StreamRequest for a (kind, index) key. -/
def lookupRequest (rs : List StreamRequest) (k : Nat × Nat) : Option StreamRequest :=
  rs.find? (fun q => decide (requestKey q = k))

/-- A connected device as seen by the Configuration Resolver (spec §4.2, §6):
an opaque serial, the stream profiles it can produce, and its default/native
configuration. -/
structure Device where
  serial : String
  profiles : List StreamProfile
  defaults : List StreamProfile
deriving DecidableEq, Repr

/-- A constrained field matches a profile value when it is 0 (unconstrained)
or equal to the value (spec §3). -/
def fieldMatches (req val : Nat) : Bool := req = 0 || req = val

/-- Whether a concrete profile satisfies a StreamRequest: same (kind, index),
and every pinned numeric field equal (spec §4.2 step 3). -/
def matchesRequest (r : StreamRequest) (p : StreamProfile) : Bool :=
  decide (p.kind = r.kind) && decide (p.index = r.index) &&
  fieldMatches r.width p.width && fieldMatches r.height p.height &&
  fieldMatches r.format p.format && fieldMatches r.framerate p.framerate

/-- Resolve one request on a device: the first capability profile that
matches; unconstrained fields take the device's native value via
first-match in enumeration order (spec §4.2 steps 3, 5). -/
def resolveRequest (d : Device) (r : StreamRequest) : Option StreamProfile :=
  d.profiles.find? (matchesRequest r)

/-- Resolve a whole request list on one device; fails if any request has no
matching capability (spec §4.2 step 4). -/
def resolveRequests (d : Device) : List StreamRequest → Option (List StreamProfile)
  | [] => some []
  | r :: rs =>
    match resolveRequest d r, resolveRequests d rs with
    | some p, some ps => some (p :: ps)
    | _, _ => none

/-- Modelled from the spec: per-device resolution.  In the absence of any
request the device's default configuration is selected (§4.2); a device
satisfies the configuration only with a non-empty profile set — §8 requires
a successful `start` to yield a non-empty active stream list. -/
def deviceResolve (d : Device) (combined : List StreamRequest) : Option (List StreamProfile) :=
  match combined with
  | [] => if d.defaults.isEmpty then none else some d.defaults
  | _ :: _ =>
    match resolveRequests d combined with
    | some ps => some ps
    | none => none

/-- Two pinned fields are compatible when either is unconstrained or they
agree (spec §4.2 step 1). -/
def fieldsCompatible (a b : Nat) : Bool := a = 0 || b = 0 || a = b

/-- A user request is compatible with a module requirement for the same key
unless some numeric field is explicitly pinned on both sides and differs
(spec §4.2 step 1). -/
def compatibleReq (u m : StreamRequest) : Bool :=
  fieldsCompatible u.width m.width && fieldsCompatible u.height m.height &&
  fieldsCompatible u.format m.format && fieldsCompatible u.framerate m.framerate

/-- Modelled from the spec (§4.2 step 1): union of explicit user requests and
module-required streams; on overlapping (kind, index) keys the user request
takes precedence but must be compatible — a conflict is a resolution
failure (`none`), not a silent override. -/
def combineRequests (user module' : List StreamRequest) :
    Option (List StreamRequest) :=
  if module'.all (fun m =>
      match lookupRequest user (requestKey m) with
      | some u => compatibleReq u m
      | none => true) then
    some (user ++ module'.filter (fun m => (lookupRequest user (requestKey m)).isNone))
  else none

/-- Restrict candidates to a serial constraint when one is set, otherwise
all connected devices in enumeration order (spec §4.2 step 2). -/
def candidateDevices (devices : List Device) : Option String → List Device
  | some s => devices.filter (fun d => decide (d.serial = s))
  | none => devices

/-- First connected candidate device that resolves — first-match wins
(spec §4.2 step 2). -/
def firstResolving : List Device → List StreamRequest → Option (Device × List StreamProfile)
  | [], _ => none
  | d :: ds, reqs =>
    match deviceResolve d reqs with
    | some ps => some (d, ps)
    | none => firstResolving ds reqs

/-- A Raw Frame (spec §3): an opaque payload tagged with stream kind, stream
index, capture timestamp and sequence number. -/
structure RawFrame where
  kind : Nat
  index : Nat
  timestamp : Nat
  seq : Nat
deriving DecidableEq, Repr

/-- The (kind, index) key of a raw frame. -/
def frameKey (f : RawFrame) : Nat × Nat := (f.kind, f.index)

/-- All timestamps of a candidate frame set lie within the synchronization
tolerance: pairwise truncated differences bounded by `tol` (spec §4.4). -/
def withinTolerance (tol : Nat) (fs : List RawFrame) : Bool :=
  fs.all (fun a => fs.all (fun b => a.timestamp - b.timestamp ≤ tol))

/-- Every active stream profile has contributed exactly one frame
(spec §3, Frame Set invariant). -/
def coversProfiles (profiles : List StreamProfile) (fs : List RawFrame) : Bool :=
  profiles.all (fun p => (fs.filter (fun f => decide (frameKey f = profileKey p))).length = 1)

/-- Every frame of a candidate set belongs to some active profile. -/
def framesActive (profiles : List StreamProfile) (fs : List RawFrame) : Bool :=
  fs.all (fun f => profiles.any (fun p => decide (profileKey p = frameKey f)))

/-- A Frame Set is complete when every currently active stream profile has
contributed exactly one frame within the synchronization tolerance
(spec §3, §4.4). -/
def isComplete (profiles : List StreamProfile) (tol : Nat) (fs : List RawFrame) : Bool :=
  coversProfiles profiles fs && framesActive profiles fs && withinTolerance tol fs

/-- Frame Synchronizer state (spec §4.4): per active profile the most recent
unconsumed raw frame, and a depth-1 delivery slot holding the latest
completed Frame Set. -/
structure SyncState where
  activeProfiles : List StreamProfile
  tolerance : Nat
  pending : List RawFrame
  delivered : Option (List RawFrame)
deriving DecidableEq, Repr

/-- The pending store after an arrival: a newer same-profile frame
supersedes an older unconsumed one — drop-old-on-new-arrival (spec §4.4). -/
def pushPending (st : SyncState) (f : RawFrame) : List RawFrame :=
  f :: st.pending.filter (fun g => decide (frameKey g ≠ frameKey f))

/-- Modelled from the spec (§4.4): capture-side `push`.  A newer same-profile
frame supersedes an older unconsumed one (drop-old-on-new-arrival); when all
active profiles have a pending frame within the synchronization window the
completed Frame Set replaces whatever the delivery slot holds. -/
def pushFrame (st : SyncState) (f : RawFrame) : SyncState :=
  if isComplete st.activeProfiles st.tolerance (pushPending st f) then
    { st with pending := [], delivered := some (pushPending st f) }
  else
    { st with pending := pushPending st f }

/-- A freshly initialized synchronizer for a set of active profiles. -/
def initSync (tol : Nat) (ps : List StreamProfile) : SyncState :=
  { activeProfiles := ps, tolerance := tol, pending := [], delivered := none }

/-- The full pipeline state (spec §3): StreamRequest Set, optional device
serial constraint, Resolved Configuration with selected device (absent
until resolved), Device Session activation flag, the Frame Synchronizer,
and the controller state. -/
structure PipelineState where
  requests : List StreamRequest
  serialConstraint : Option String
  resolved : Option (Device × List StreamProfile)
  sessionActive : Bool
  sync : SyncState
  ctrl : CtrlState
deriving DecidableEq, Repr

/-- The freshly-created pipeline state (spec §3, §4.5). -/
def initState : PipelineState :=
  { requests := []
    serialConstraint := none
    resolved := none
    sessionActive := false
    sync := initSync 0 []
    ctrl := .Created }

/-- External collaborators (spec §6): connected devices with capabilities,
attached-module stream requirements, whether another owner already holds a
required sensor, and the synchronization tolerance in force. -/
structure Env where
  devices : List Device
  moduleReqs : List StreamRequest
  sensorBusy : Bool
  tolerance : Nat
deriving DecidableEq, Repr

/-- Modelled from the spec (§4.2): the Configuration Resolver.  Fails with
`NoDeviceError` when zero devices are connected, and with
`ConfigurationError` when the combined requirements conflict or no
connected candidate device satisfies every required stream. -/
def resolveConfig (env : Env) (serial : Option String) (reqs : List StreamRequest) :
    Except RsError (Device × List StreamProfile) :=
  if env.devices.isEmpty then .error .NoDeviceError
  else
    match combineRequests reqs env.moduleReqs with
    | none => .error .ConfigurationError
    | some combined =>
      match firstResolving (candidateDevices env.devices serial) combined with
      | some dc => .ok dc
      | none => .error .ConfigurationError

/-- Modelled from the spec (§4.1): `rs2_enable_pipeline_stream`.
Inserts/overwrites the entry keyed by (kind, index); fails with
`InvalidStateError` if called after commit and before reset — mutation is
allowed only in `Created`/`Configuring`. -/
def rs2_enable_pipeline_stream (s : PipelineState) (r : StreamRequest) :
    Except RsError PipelineState :=
  match s.ctrl with
  | .Created => .ok { s with requests := insertRequest s.requests r, ctrl := .Configuring }
  | .Configuring => .ok { s with requests := insertRequest s.requests r }
  | _ => .error .InvalidStateError

/-- Modelled from the spec (§4.1): `rs2_enable_pipeline_device` records a
device-serial constraint, under the same state restrictions. -/
def rs2_enable_pipeline_device (s : PipelineState) (serial : String) :
    Except RsError PipelineState :=
  match s.ctrl with
  | .Created => .ok { s with serialConstraint := some serial, ctrl := .Configuring }
  | .Configuring => .ok { s with serialConstraint := some serial }
  | _ => .error .InvalidStateError

/-- Modelled from the spec (§4.1): `rs2_disable_stream_pipeline` removes all
entries of that stream kind regardless of index; no-op if absent. -/
def rs2_disable_stream_pipeline (s : PipelineState) (kind : Nat) :
    Except RsError PipelineState :=
  let remaining := s.requests.filter (fun q => decide (q.kind ≠ kind))
  match s.ctrl with
  | .Created => .ok { s with requests := remaining, ctrl := .Configuring }
  | .Configuring => .ok { s with requests := remaining }
  | _ => .error .InvalidStateError

/-- Modelled from the spec (§4.1): `rs2_disable_all_streams_pipeline` clears
the StreamRequest Set. -/
def rs2_disable_all_streams_pipeline (s : PipelineState) :
    Except RsError PipelineState :=
  match s.ctrl with
  | .Created => .ok { s with requests := [], ctrl := .Configuring }
  | .Configuring => .ok { s with requests := [] }
  | _ => .error .InvalidStateError

/-- Modelled from the spec (§4.5): `rs2_open_pipeline` (commit_config).
Valid from `Created`/`Configuring`; runs the Configuration Resolver and on
success fixes the Resolved Configuration and moves to `Committed` —
selection only, sensor activation is deferred to `start`. -/
def rs2_open_pipeline (env : Env) (s : PipelineState) : Except RsError PipelineState :=
  match s.ctrl with
  | .Created | .Configuring =>
    match resolveConfig env s.serialConstraint s.requests with
    | .ok dc => .ok { s with resolved := some dc, ctrl := .Committed }
    | .error e => .error e
  | _ => .error .InvalidStateError

/-- Modelled from the spec (§4.3, §4.5): Device Session activation.  Fails
with `DeviceBusyError` if another owner holds a required sensor; otherwise
opens the resolved streams, initializes the Frame Synchronizer for the
resolved profiles, and begins streaming. -/
def activateSession (env : Env) (s : PipelineState) : Except RsError PipelineState :=
  if env.sensorBusy then .error .DeviceBusyError
  else
    match s.resolved with
    | some (_, ps) =>
      .ok { s with sessionActive := true
                   sync := initSync env.tolerance ps
                   ctrl := .Streaming }
    | none => .error .NotReadyError

/-- Modelled from the spec (§4.5): `rs2_start_pipeline`.  No-op if already
`Streaming`; from `Committed`/`Stopped` activates the previously resolved
configuration; from `Created`/`Configuring` resolves the configuration
first (the implicit commit) and then activates. -/
def rs2_start_pipeline (env : Env) (s : PipelineState) : Except RsError PipelineState :=
  match s.ctrl with
  | .Streaming => .ok s
  | .Committed => activateSession env s
  | .Stopped => activateSession env s
  | .Created | .Configuring =>
    match resolveConfig env s.serialConstraint s.requests with
    | .error e => .error e
    | .ok dc =>
      if env.sensorBusy then .error .DeviceBusyError
      else
        .ok { s with resolved := some dc
                     sessionActive := true
                     sync := initSync env.tolerance dc.2
                     ctrl := .Streaming }

/-- Modelled from the spec (§4.5): `rs2_stop_pipeline`.  Valid from
`Streaming`; halts capture, deactivates the Device Session, discards
in-flight undelivered Frame Sets, retains the configuration. -/
def rs2_stop_pipeline (s : PipelineState) : Except RsError PipelineState :=
  match s.ctrl with
  | .Streaming =>
    .ok { s with sessionActive := false
                 sync := { s.sync with pending := [], delivered := none }
                 ctrl := .Stopped }
  | _ => .error .InvalidStateError

/-- Modelled from the spec (§4.4, §4.5): `rs2_pipeline_wait_for_frames`.
Valid only from `Streaming`; drains the delivery slot, or fails with
`TimeoutError` when no complete Frame Set becomes available before the
timeout elapses (the frames pushed so far are all that arrive in time). -/
def rs2_pipeline_wait_for_frames (s : PipelineState) (timeout_ms : Nat := 5000) :
    Except RsError (List RawFrame × PipelineState) :=
  match s.ctrl, timeout_ms with
  | .Streaming, _ =>
    match s.sync.delivered with
    | some fs => .ok (fs, { s with sync := { s.sync with delivered := none } })
    | none => .error .TimeoutError
  | _, _ => .error .InvalidStateError

/-- Modelled from the spec (§4.4, §4.5): `rs2_pipeline_poll_for_frames`.
Valid only from `Streaming`; non-blocking.  Returns the C-style pair of an
availability flag (1/0) and the fetched frame set reference (latest set or
null), together with the successor state. -/
def rs2_pipeline_poll_for_frames (s : PipelineState) :
    Except RsError ((Nat × Option (List RawFrame)) × PipelineState) :=
  match s.ctrl with
  | .Streaming =>
    match s.sync.delivered with
    | some fs => .ok ((1, some fs), { s with sync := { s.sync with delivered := none } })
    | none => .ok ((0, none), s)
  | _ => .error .InvalidStateError

/-- Modelled from the spec (§4.5): `rs2_pipeline_get_active_streams` returns
the Resolved Configuration's stream profiles, and fails with
`NotReadyError` before any successful commit. -/
def rs2_pipeline_get_active_streams (s : PipelineState) :
    Except RsError (List StreamProfile) :=
  match s.resolved with
  | some (_, ps) => .ok ps
  | none => .error .NotReadyError

/-- Capture-side feed (spec §5): the background capture thread pushes raw
frames into the Frame Synchronizer while the pipeline is streaming. -/
def pipeline_push (s : PipelineState) (f : RawFrame) : PipelineState :=
  if s.ctrl = .Streaming then { s with sync := pushFrame s.sync f } else s

/-- A run of the capture feed over a list of arriving raw frames. -/
def captureRun (s : PipelineState) (frames : List RawFrame) : PipelineState :=
  frames.foldl pipeline_push s

/-- From the source: `rs2::pipeline::start` forwards to
`rs2_start_pipeline` and raises any returned error. -/
def pipeline_start (env : Env) (s : PipelineState) : Except RsError PipelineState :=
  rs2_start_pipeline env s

/-- From the source: `rs2::pipeline::open` (commit_config) forwards to
`rs2_open_pipeline` and raises any returned error. -/
def pipeline_open (env : Env) (s : PipelineState) : Except RsError PipelineState :=
  rs2_open_pipeline env s

/-- From the source: `rs2::pipeline::stop` forwards to
`rs2_stop_pipeline` and raises any returned error. -/
def pipeline_stop (s : PipelineState) : Except RsError PipelineState :=
  rs2_stop_pipeline s

/-- From the source: `void reset_config(){}` — the method body is empty.  It
calls no underlying API, clears nothing, and has no error path; in the
`Except` embedding used for the other methods it always returns the state
unchanged. -/
def pipeline_reset_config (s : PipelineState) : Except RsError PipelineState :=
  .ok s

/-- From the source: `rs2::pipeline::enable_stream` forwards to
`rs2_enable_pipeline_stream` and raises any returned error. -/
def pipeline_enable_stream (s : PipelineState) (r : StreamRequest) :
    Except RsError PipelineState :=
  rs2_enable_pipeline_stream s r

/-- From the source: `rs2::pipeline::enable_device` forwards to
`rs2_enable_pipeline_device`. -/
def pipeline_enable_device (s : PipelineState) (serial : String) :
    Except RsError PipelineState :=
  rs2_enable_pipeline_device s serial

/-- From the source: `rs2::pipeline::disable_stream` forwards to
`rs2_disable_stream_pipeline`. -/
def pipeline_disable_stream (s : PipelineState) (kind : Nat) :
    Except RsError PipelineState :=
  rs2_disable_stream_pipeline s kind

/-- From the source: `rs2::pipeline::disable_all` forwards to
`rs2_disable_all_streams_pipeline`. -/
def pipeline_disable_all (s : PipelineState) : Except RsError PipelineState :=
  rs2_disable_all_streams_pipeline s

/-- From the source: `rs2::pipeline::wait_for_frames` forwards to
`rs2_pipeline_wait_for_frames` (default timeout 5000 ms) and wraps the
returned frame as a frameset. -/
def pipeline_wait_for_frames (s : PipelineState) (timeout_ms : Nat := 5000) :
    Except RsError (List RawFrame × PipelineState) :=
  rs2_pipeline_wait_for_frames s timeout_ms

/-- From the source: `rs2::pipeline::poll_for_frames`.  The caller supplies
the current value of the out-parameter `f`; the body stores the fetched set
to it only when the underlying result is non-zero
(`if (res) *f = frameset(frame(frame_ref));`) and returns `res > 0`. -/
def pipeline_poll_for_frames (s : PipelineState) (fOut : Option (List RawFrame)) :
    Except RsError ((Bool × Option (List RawFrame)) × PipelineState) :=
  match rs2_pipeline_poll_for_frames s with
  | .error e => .error e
  | .ok ((res, frame_ref), s2) =>
    .ok ((decide (res > 0), if res ≠ 0 then frame_ref else fOut), s2)

/-- From the source: `rs2::pipeline::get_active_streams` forwards to
`rs2_pipeline_get_active_streams` and collects the profile list. -/
def pipeline_get_active_streams (s : PipelineState) :
    Except RsError (List StreamProfile) :=
  rs2_pipeline_get_active_streams s

/-- Run an operation that may fail, keeping the previous state on error:
the caller's pipeline handle is unchanged when a method throws. -/
def stepOr (s : PipelineState) (r : Except RsError PipelineState) : PipelineState :=
  match r with
  | .ok s2 => s2
  | .error _ => s

/-- A configuration-phase call, before any `open`/`start` (spec §4.1, §6). -/
inductive ConfigOp where
  | enableStream (r : StreamRequest)
  | enableDevice (serial : String)
  | disableStream (kind : Nat)
  | disableAll
deriving DecidableEq, Repr

/-- Apply one configuration call, keeping the state on error. -/
def applyConfigOp (s : PipelineState) : ConfigOp → PipelineState
  | .enableStream r => stepOr s (pipeline_enable_stream s r)
  | .enableDevice serial => stepOr s (pipeline_enable_device s serial)
  | .disableStream kind => stepOr s (pipeline_disable_stream s kind)
  | .disableAll => stepOr s (pipeline_disable_all s)

/-- A run of configuration-phase calls. -/
def configRun (s : PipelineState) (ops : List ConfigOp) : PipelineState :=
  ops.foldl applyConfigOp s

/-- A run of `enable_stream` calls, keeping the state on error. -/
def enableRun (s : PipelineState) (calls : List StreamRequest) : PipelineState :=
  calls.foldl (fun t r => stepOr t (pipeline_enable_stream t r)) s

/-- A concrete explicit stream request: kind 1 (e.g. depth), index 0,
640x480, format 2, 30 fps. -/
def exampleRequest : StreamRequest :=
  { kind := 1, index := 0, width := 640, height := 480, format := 2, framerate := 30 }

/-- The concrete profile matching `exampleRequest`. -/
def exampleProfile : StreamProfile :=
  { kind := 1, index := 0, width := 640, height := 480, format := 2, framerate := 30 }

/-- A connected device able to produce `exampleProfile`. -/
def exampleDevice : Device :=
  { serial := "923", profiles := [exampleProfile], defaults := [exampleProfile] }

/-- An environment with one connected device, no module requirements, no
sensor contention, and synchronization tolerance 10. -/
def exampleEnv : Env :=
  { devices := [exampleDevice], moduleReqs := [], sensorBusy := false, tolerance := 10 }

/-- A pipeline that has one enabled stream request and is still in the
configuration phase. -/
def exampleConfiguredState : PipelineState :=
  { initState with requests := [exampleRequest], ctrl := .Configuring }

/-- The pipeline after a successful commit of `exampleConfiguredState`. -/
def exampleCommittedState : PipelineState :=
  { exampleConfiguredState with
      resolved := some (exampleDevice, [exampleProfile])
      ctrl := .Committed }

/-- The pipeline after a successful start: streaming on `exampleProfile`. -/
def exampleStreamingState : PipelineState :=
  { exampleCommittedState with
      sessionActive := true
      sync := initSync 10 [exampleProfile]
      ctrl := .Streaming }

/-- A raw frame for `exampleProfile`. -/
def exampleFrame : RawFrame := { kind := 1, index := 0, timestamp := 100, seq := 1 }

/-- The streaming pipeline with a completed Frame Set in the delivery slot. -/
def exampleDeliveredState : PipelineState :=
  { exampleStreamingState with
      sync := { activeProfiles := [exampleProfile], tolerance := 10,
                pending := [], delivered := some [exampleFrame] } }

/-- C1: the source's `reset_config` has an empty body `{}`; evaluated in a
state where reset is permitted (`Configuring`, one enabled request) it
returns the state unchanged — the StreamRequest Set still holds its one
request instead of being cleared to the freshly-created state, contradicting
the claim and the method's own documentation. -/
theorem reset_config_does_not_clear :
    pipeline_reset_config exampleConfiguredState = .ok exampleConfiguredState ∧
    exampleConfiguredState.requests.length = 1 ∧
    initState.requests.length = 0 ∧
    decide (exampleConfiguredState = initState) = false :=
  ⟨rfl, rfl, rfl, rfl⟩

/-- C2: the source's `reset_config` has an empty body and no error path;
called while `Streaming` it returns successfully with the state unchanged
instead of failing with `InvalidStateError` as the claim and the method's
own documentation ("Resetting the pipeline configuration while streaming is
invalid") require. -/
theorem reset_config_streaming_returns_ok :
    exampleStreamingState.ctrl = .Streaming ∧
    pipeline_reset_config exampleStreamingState = .ok exampleStreamingState :=
  ⟨rfl, rfl⟩

/-- C4: calling `start` when the controller is already `Streaming` is a
no-op — the call succeeds returning the state entirely unchanged (no second
activation, synchronizer untouched) — and every successful `start` leaves
the controller `Streaming`, so a second `start` returns exactly the state
produced by the first. -/
theorem start_noop_when_streaming :
    (∀ env s, s.ctrl = .Streaming → pipeline_start env s = .ok s) ∧
    (∀ env s s2, pipeline_start env s = .ok s2 → s2.ctrl = .Streaming) := by
  constructor
  · intro env s h
    unfold pipeline_start rs2_start_pipeline
    rw [h]
  · intro env s s2 h
    unfold pipeline_start rs2_start_pipeline activateSession at h
    split at h
    · injection h with h2; subst h2; assumption
    · split at h
      · cases h
      · split at h
        · injection h with h2; subst h2; rfl
        · cases h
    · split at h
      · cases h
      · split at h
        · injection h with h2; subst h2; rfl
        · cases h
    · split at h
      · cases h
      · split at h
        · cases h
        · injection h with h2; subst h2; rfl
    · split at h
      · cases h
      · split at h
        · cases h
        · injection h with h2; subst h2; rfl

/-- Witness for C4 at a concrete streaming state: the second `start` returns
the state unchanged and the controller is still `Streaming`. -/
theorem start_noop_when_streaming_witness :
    pipeline_start exampleEnv exampleStreamingState = .ok exampleStreamingState ∧
    exampleStreamingState.ctrl = .Streaming :=
  ⟨start_noop_when_streaming.1 exampleEnv exampleStreamingState rfl,
   start_noop_when_streaming.2 exampleEnv exampleStreamingState exampleStreamingState
     (start_noop_when_streaming.1 exampleEnv exampleStreamingState rfl)⟩

/-- C9: `enable_stream` called after the configuration is committed
(`Committed`, `Streaming` or `Stopped` — i.e. after `open`/`start` and
before a reset) fails with `InvalidStateError`, and the caller's pipeline
state, in particular the StreamRequest Set, is unchanged. -/
theorem enable_stream_after_commit_rejected :
    ∀ s r, (s.ctrl = .Committed ∨ s.ctrl = .Streaming ∨ s.ctrl = .Stopped) →
      pipeline_enable_stream s r = .error .InvalidStateError ∧
      stepOr s (pipeline_enable_stream s r) = s := by
  intro s r h
  unfold pipeline_enable_stream rs2_enable_pipeline_stream stepOr
  rcases h with h | h | h <;> rw [h] <;> exact ⟨rfl, rfl⟩

/-- Witness for C9 at the concrete committed state. -/
theorem enable_stream_after_commit_rejected_witness :
    pipeline_enable_stream exampleCommittedState exampleRequest = .error .InvalidStateError ∧
    stepOr exampleCommittedState (pipeline_enable_stream exampleCommittedState exampleRequest) =
      exampleCommittedState :=
  enable_stream_after_commit_rejected exampleCommittedState exampleRequest (Or.inl rfl)

/-- C10: while `Streaming`, `poll_for_frames` stores to its out-parameter
exactly when it returns true: with a completed Frame Set available it
returns true and the out-parameter holds the newly fetched set; with none
available it returns false and the caller-supplied out-parameter value is
left unmodified (and the pipeline state is unchanged). -/
theorem poll_for_frames_writes_iff_true :
    ∀ s fOut, s.ctrl = .Streaming →
      pipeline_poll_for_frames s fOut =
        match s.sync.delivered with
        | some fs => .ok ((true, some fs), { s with sync := { s.sync with delivered := none } })
        | none => .ok ((false, fOut), s) := by
  intro s fOut h
  unfold pipeline_poll_for_frames rs2_pipeline_poll_for_frames
  rw [h]
  cases s.sync.delivered <;> rfl

/-- Witness for C10 at concrete streaming states, with and without an
available Frame Set. -/
theorem poll_for_frames_writes_iff_true_witness :
    pipeline_poll_for_frames exampleDeliveredState none =
      .ok ((true, some [exampleFrame]),
           { exampleDeliveredState with
               sync := { exampleDeliveredState.sync with delivered := none } }) ∧
    pipeline_poll_for_frames exampleStreamingState (some [exampleFrame]) =
      .ok ((false, some [exampleFrame]), exampleStreamingState) :=
  ⟨poll_for_frames_writes_iff_true exampleDeliveredState none rfl,
   poll_for_frames_writes_iff_true exampleStreamingState (some [exampleFrame]) rfl⟩

/-- C8: from an uncommitted state (`Created`/`Configuring`), `start` is
exactly `open`'s configuration-resolution step followed by device
activation — the composite `open >>= activateSession`, not an independent
code path. -/
theorem start_factors_through_open :
    ∀ env s, (s.ctrl = .Created ∨ s.ctrl = .Configuring) →
      pipeline_start env s = (pipeline_open env s).bind (activateSession env) := by
  intro env s h
  unfold pipeline_start pipeline_open rs2_start_pipeline rs2_open_pipeline activateSession
  rcases h with h | h
  · rw [h]
    cases hr : resolveConfig env s.serialConstraint s.requests with
    | error e => rfl
    | ok dc =>
      obtain ⟨d, ps⟩ := dc
      by_cases hb : env.sensorBusy
      · simp [hb, Except.bind]
      · simp [hb, Except.bind]
  · rw [h]
    cases hr : resolveConfig env s.serialConstraint s.requests with
    | error e => rfl
    | ok dc =>
      obtain ⟨d, ps⟩ := dc
      by_cases hb : env.sensorBusy
      · simp [hb, Except.bind]
      · simp [hb, Except.bind]

/-- Witness for C8 at a concrete uncommitted configured state. -/
theorem start_factors_through_open_witness :
    pipeline_start exampleEnv exampleConfiguredState =
      (pipeline_open exampleEnv exampleConfiguredState).bind (activateSession exampleEnv) :=
  start_factors_through_open exampleEnv exampleConfiguredState (Or.inr rfl)

/-- With zero connected devices the resolver fails with `NoDeviceError`. -/
theorem resolveConfig_no_device (env : Env) (serial : Option String)
    (reqs : List StreamRequest) (h : env.devices = []) :
    resolveConfig env serial reqs = .error .NoDeviceError := by
  unfold resolveConfig
  rw [h]
  rfl

/-- With devices connected but no candidate satisfying the combined
requirements, the resolver fails with `ConfigurationError`. -/
theorem resolveConfig_unsatisfiable (env : Env) (serial : Option String)
    (reqs : List StreamRequest) (hne : env.devices ≠ [])
    (h : ∀ combined, combineRequests reqs env.moduleReqs = some combined →
        firstResolving (candidateDevices env.devices serial) combined = none) :
    resolveConfig env serial reqs = .error .ConfigurationError := by
  unfold resolveConfig
  have hie : env.devices.isEmpty = false := by
    cases hk : env.devices
    · exact absurd hk hne
    · rfl
  rw [hie]
  cases hc : combineRequests reqs env.moduleReqs with
  | none => rfl
  | some combined =>
    show (match firstResolving (candidateDevices env.devices serial) combined with
      | some dc => Except.ok dc
      | none => Except.error RsError.ConfigurationError) = Except.error RsError.ConfigurationError
    rw [h combined hc]

/-- `open` surfaces any resolver error synchronously. -/
theorem open_propagates_resolver_error (env : Env) (s : PipelineState) (e : RsError)
    (h : s.ctrl = .Created ∨ s.ctrl = .Configuring)
    (hr : resolveConfig env s.serialConstraint s.requests = .error e) :
    pipeline_open env s = .error e := by
  unfold pipeline_open rs2_open_pipeline
  rcases h with h | h <;> rw [h, hr]

/-- `start` from an uncommitted state surfaces any resolver error
synchronously. -/
theorem start_propagates_resolver_error (env : Env) (s : PipelineState) (e : RsError)
    (h : s.ctrl = .Created ∨ s.ctrl = .Configuring)
    (hr : resolveConfig env s.serialConstraint s.requests = .error e) :
    pipeline_start env s = .error e := by
  unfold pipeline_start rs2_start_pipeline
  rcases h with h | h <;> rw [h, hr]

/-- `wait_for_frames` on a never-started pipeline reports only
`InvalidStateError` — it never reports a resolution error. -/
theorem wait_invalid_before_streaming (s : PipelineState) (t : Nat)
    (h : s.ctrl = .Created ∨ s.ctrl = .Configuring) :
    pipeline_wait_for_frames s t = .error .InvalidStateError := by
  unfold pipeline_wait_for_frames rs2_pipeline_wait_for_frames
  rcases h with h | h <;> rw [h]

/-- C7: configuration resolution fails with `NoDeviceError` when zero
devices are connected and with `ConfigurationError` when devices are
connected but none satisfies every required stream; both failures surface
synchronously from `open`/`start`, and with no device connected a failed
`start` leaves the pipeline out of `Streaming`, where `wait_for_frames`
can only report `InvalidStateError` — so the `NoDeviceError` is never
deferred to `wait_for_frames`. -/
theorem resolution_failures_surface_at_start :
    (∀ env s, env.devices = [] → (s.ctrl = .Created ∨ s.ctrl = .Configuring) →
        pipeline_open env s = .error .NoDeviceError ∧
        pipeline_start env s = .error .NoDeviceError ∧
        ∀ t, pipeline_wait_for_frames s t = .error .InvalidStateError) ∧
    (∀ env s, env.devices ≠ [] → (s.ctrl = .Created ∨ s.ctrl = .Configuring) →
        (∀ combined, combineRequests s.requests env.moduleReqs = some combined →
            firstResolving (candidateDevices env.devices s.serialConstraint) combined = none) →
        pipeline_open env s = .error .ConfigurationError ∧
        pipeline_start env s = .error .ConfigurationError) := by
  constructor
  · intro env s hd hc
    have hr := resolveConfig_no_device env s.serialConstraint s.requests hd
    exact ⟨open_propagates_resolver_error env s _ hc hr,
           start_propagates_resolver_error env s _ hc hr,
           fun t => wait_invalid_before_streaming s t hc⟩
  · intro env s hne hc hfail
    have hr := resolveConfig_unsatisfiable env s.serialConstraint s.requests hne hfail
    exact ⟨open_propagates_resolver_error env s _ hc hr,
           start_propagates_resolver_error env s _ hc hr⟩

/-- An environment with zero connected devices. -/
def emptyEnv : Env := { devices := [], moduleReqs := [], sensorBusy := false, tolerance := 0 }

/-- A connected device with no usable stream profile at all. -/
def bareDevice : Device := { serial := "1", profiles := [], defaults := [] }

/-- An environment whose single connected device satisfies nothing. -/
def bareEnv : Env := { devices := [bareDevice], moduleReqs := [], sensorBusy := false, tolerance := 0 }

/-- Witness for C7: with zero devices, `open`/`start` on a fresh pipeline
fail with `NoDeviceError` and `wait_for_frames` reports `InvalidStateError`;
with one unsatisfying device they fail with `ConfigurationError`. -/
theorem resolution_failures_surface_at_start_witness :
    (pipeline_open emptyEnv initState = .error .NoDeviceError ∧
     pipeline_start emptyEnv initState = .error .NoDeviceError ∧
     pipeline_wait_for_frames initState 5000 = .error .InvalidStateError) ∧
    (pipeline_open bareEnv initState = .error .ConfigurationError ∧
     pipeline_start bareEnv initState = .error .ConfigurationError) := by
  have h1 := resolution_failures_surface_at_start.1 emptyEnv initState rfl (Or.inl rfl)
  have h2 := resolution_failures_surface_at_start.2 bareEnv initState
    (by decide) (Or.inl rfl)
    (fun combined hcomb => by
      injection hcomb with h2
      subst h2
      rfl)
  exact ⟨⟨h1.1, h1.2.1, h1.2.2 5000⟩, h2⟩

/-- Configuration-phase calls never touch the Resolved Configuration. -/
theorem applyConfigOp_resolved (s : PipelineState) (op : ConfigOp) :
    (applyConfigOp s op).resolved = s.resolved := by
  cases op <;>
    unfold applyConfigOp stepOr pipeline_enable_stream pipeline_enable_device
      pipeline_disable_stream pipeline_disable_all rs2_enable_pipeline_stream
      rs2_enable_pipeline_device rs2_disable_stream_pipeline
      rs2_disable_all_streams_pipeline <;>
    cases s.ctrl <;> rfl

/-- A run of configuration-phase calls never touches the Resolved
Configuration. -/
theorem configRun_resolved (s : PipelineState) (ops : List ConfigOp) :
    (configRun s ops).resolved = s.resolved := by
  induction ops generalizing s with
  | nil => rfl
  | cons op ops ih =>
    unfold configRun
    rw [List.foldl_cons]
    exact (ih (applyConfigOp s op)).trans (applyConfigOp_resolved s op)

/-- Resolving a non-empty request list yields a non-empty profile list. -/
theorem resolveRequests_cons_ne_nil (d : Device) (r : StreamRequest)
    (rs : List StreamRequest) (ps : List StreamProfile)
    (h : resolveRequests d (r :: rs) = some ps) : ps ≠ [] := by
  unfold resolveRequests at h
  cases h1 : resolveRequest d r with
  | none => rw [h1] at h; cases h
  | some p =>
    cases h2 : resolveRequests d rs with
    | none => rw [h1, h2] at h; cases h
    | some ps2 =>
      rw [h1, h2] at h
      injection h with h3
      rw [← h3]
      exact List.cons_ne_nil p ps2

/-- A successful per-device resolution yields a non-empty profile list. -/
theorem deviceResolve_ne_nil (d : Device) (reqs : List StreamRequest)
    (ps : List StreamProfile) (h : deviceResolve d reqs = some ps) : ps ≠ [] := by
  unfold deviceResolve at h
  cases reqs with
  | nil =>
    by_cases he : d.defaults.isEmpty
    · rw [if_pos he] at h; cases h
    · rw [if_neg he] at h
      injection h with h2
      intro hnil
      apply he
      rw [h2, hnil]
      rfl
  | cons r rs =>
    cases hr : resolveRequests d (r :: rs) with
    | none => rw [hr] at h; cases h
    | some ps2 =>
      rw [hr] at h
      injection h with h2
      rw [← h2]
      exact resolveRequests_cons_ne_nil d r rs ps2 hr

/-- The first-match device search only returns non-empty profile lists. -/
theorem firstResolving_ne_nil {ds : List Device} {reqs : List StreamRequest}
    {d : Device} {ps : List StreamProfile}
    (h : firstResolving ds reqs = some (d, ps)) : ps ≠ [] := by
  induction ds with
  | nil => cases h
  | cons d0 ds ih =>
    unfold firstResolving at h
    cases hr : deviceResolve d0 reqs with
    | some ps0 =>
      rw [hr] at h
      injection h with h2
      rw [Prod.mk.injEq] at h2
      rw [← h2.2]
      exact deviceResolve_ne_nil d0 reqs ps0 hr
    | none =>
      rw [hr] at h
      exact ih h

/-- A successful resolution yields a non-empty profile list. -/
theorem resolveConfig_ok_ne_nil {env : Env} {serial : Option String}
    {reqs : List StreamRequest} {d : Device} {ps : List StreamProfile}
    (h : resolveConfig env serial reqs = .ok (d, ps)) : ps ≠ [] := by
  unfold resolveConfig at h
  split at h
  · cases h
  · split at h
    · cases h
    · split at h
      · injection h with h2
        subst h2
        exact firstResolving_ne_nil (by assumption)
      · cases h

/-- States whose Resolved Configuration is meaningful: resolution output is
never empty, and a streaming pipeline always has a resolved configuration
(both hold in every run of the controller from the initial state). -/
def stateWF (s : PipelineState) : Prop :=
  (∀ d ps, s.resolved = some (d, ps) → ps ≠ []) ∧
  (s.ctrl = .Streaming → s.resolved.isSome = true)

/-- Every successful `start` ends with a non-empty Resolved Configuration. -/
theorem start_ok_resolved {env : Env} {s s2 : PipelineState} (hwf : stateWF s)
    (h : rs2_start_pipeline env s = .ok s2) :
    ∃ d ps, s2.resolved = some (d, ps) ∧ ps ≠ [] := by
  obtain ⟨hne, hsome⟩ := hwf
  unfold rs2_start_pipeline activateSession at h
  split at h
  · injection h with h2
    subst h2
    have hs : s.resolved.isSome = true := hsome (by assumption)
    cases hr : s.resolved with
    | none => rw [hr] at hs; cases hs
    | some dc =>
      obtain ⟨d, ps⟩ := dc
      exact ⟨d, ps, rfl, hne d ps hr⟩
  · split at h
    · cases h
    · split at h
      · rename_i d ps heq
        injection h with h2
        subst h2
        exact ⟨d, ps, heq, hne d ps heq⟩
      · cases h
  · split at h
    · cases h
    · split at h
      · rename_i d ps heq
        injection h with h2
        subst h2
        exact ⟨d, ps, heq, hne d ps heq⟩
      · cases h
  · split at h
    · cases h
    · rename_i dc heq
      split at h
      · cases h
      · injection h with h2
        subst h2
        obtain ⟨d, ps⟩ := dc
        exact ⟨d, ps, rfl, resolveConfig_ok_ne_nil heq⟩
  · split at h
    · cases h
    · rename_i dc heq
      split at h
      · cases h
      · injection h with h2
        subst h2
        obtain ⟨d, ps⟩ := dc
        exact ⟨d, ps, rfl, resolveConfig_ok_ne_nil heq⟩

/-- C5: `get_active_streams` before any `open`/`start` — after any sequence
of configuration-phase calls on a fresh pipeline — fails with
`NotReadyError`; after a successful `start` (from any wellformed state) it
returns exactly the non-empty Stream Profiles of the Resolved
Configuration. -/
theorem get_active_streams_contract :
    (∀ ops, pipeline_get_active_streams (configRun initState ops) =
        .error .NotReadyError) ∧
    (∀ env s s2, stateWF s → pipeline_start env s = .ok s2 →
        ∃ d ps, s2.resolved = some (d, ps) ∧
          pipeline_get_active_streams s2 = .ok ps ∧ ps ≠ []) := by
  constructor
  · intro ops
    unfold pipeline_get_active_streams rs2_pipeline_get_active_streams
    rw [configRun_resolved]
    rfl
  · intro env s s2 hwf hstart
    obtain ⟨d, ps, hres, hnil⟩ := start_ok_resolved hwf hstart
    refine ⟨d, ps, hres, ?_, hnil⟩
    unfold pipeline_get_active_streams rs2_pipeline_get_active_streams
    rw [hres]

/-- Witness for C5: a fresh pipeline configured by one `enable_stream` call
still reports `NotReadyError`; starting the example configured pipeline
yields exactly the one resolved profile. -/
theorem get_active_streams_contract_witness :
    pipeline_get_active_streams (configRun initState [.enableStream exampleRequest]) =
      .error .NotReadyError ∧
    ∃ d ps, exampleStreamingState.resolved = some (d, ps) ∧
      pipeline_get_active_streams exampleStreamingState = .ok ps ∧ ps ≠ [] :=
  ⟨get_active_streams_contract.1 [.enableStream exampleRequest],
   get_active_streams_contract.2 exampleEnv exampleConfiguredState exampleStreamingState
     (And.intro (fun _ _ h => nomatch h) (fun h => nomatch h)) rfl⟩

/-- Removing all entries of a foreign key leaves lookup of other keys
unchanged. -/
theorem find_filter_other_key (rs : List StreamRequest) (rk k : Nat × Nat)
    (hk : rk ≠ k) :
    (rs.filter (fun q => decide (requestKey q ≠ rk))).find?
        (fun q => decide (requestKey q = k)) =
      rs.find? (fun q => decide (requestKey q = k)) := by
  induction rs with
  | nil => rfl
  | cons q rs ih =>
    by_cases hq : requestKey q = rk
    · have h1 : decide (requestKey q ≠ rk) = false := by simp [hq]
      have h2 : decide (requestKey q = k) = false := by simp [hq, hk]
      rw [List.filter_cons, h1, if_neg Bool.false_ne_true, List.find?_cons, h2]
      exact ih
    · have h1 : decide (requestKey q ≠ rk) = true := by simp [hq]
      rw [List.filter_cons, h1, if_pos rfl, List.find?_cons, List.find?_cons]
      cases h2 : decide (requestKey q = k)
      · exact ih
      · rfl

/-- Lookup after an insert: the inserted key now maps to the new request;
any other key is unaffected. -/
theorem lookupRequest_insert (rs : List StreamRequest) (r : StreamRequest)
    (k : Nat × Nat) :
    lookupRequest (insertRequest rs r) k =
      if requestKey r = k then some r else lookupRequest rs k := by
  unfold insertRequest lookupRequest
  rw [List.find?_cons]
  by_cases hk : requestKey r = k
  · have h2 : decide (requestKey r = k) = true := by simp [hk]
    rw [if_pos hk, h2]
  · have h2 : decide (requestKey r = k) = false := by simp [hk]
    rw [if_neg hk, h2]
    exact find_filter_other_key rs (requestKey r) k hk

/-- Lookup after a fold of inserts: the last inserted request with the key
wins; keys never inserted fall back to the original set. -/
theorem lookupRequest_foldl_insert (calls : List StreamRequest)
    (rs : List StreamRequest) (k : Nat × Nat) :
    lookupRequest (calls.foldl insertRequest rs) k =
      match calls.reverse.find? (fun r => decide (requestKey r = k)) with
      | some r => some r
      | none => lookupRequest rs k := by
  induction calls generalizing rs with
  | nil => rfl
  | cons c cs ih =>
    rw [List.foldl_cons, ih (insertRequest rs c), List.reverse_cons, List.find?_append]
    cases hf : cs.reverse.find? (fun r => decide (requestKey r = k)) with
    | some r => rfl
    | none =>
      rw [lookupRequest_insert, List.find?_cons]
      by_cases hc : requestKey c = k
      · have h2 : decide (requestKey c = k) = true := by simp [hc]
        rw [if_pos hc, h2]
        rfl
      · have h2 : decide (requestKey c = k) = false := by simp [hc]
        rw [if_neg hc, h2]
        rfl

/-- A run of successful `enable_stream` calls from a pre-commit state
accumulates exactly the folded inserts. -/
theorem enableRun_requests (s : PipelineState) (calls : List StreamRequest)
    (h : s.ctrl = .Created ∨ s.ctrl = .Configuring) :
    (enableRun s calls).requests = calls.foldl insertRequest s.requests := by
  induction calls generalizing s with
  | nil => rfl
  | cons c cs ih =>
    unfold enableRun
    rw [List.foldl_cons, List.foldl_cons]
    rcases h with h | h
    · have hstep : stepOr s (pipeline_enable_stream s c) =
          { s with requests := insertRequest s.requests c, ctrl := .Configuring } := by
        unfold stepOr pipeline_enable_stream rs2_enable_pipeline_stream
        rw [h]
      rw [hstep]
      exact ih _ (Or.inr rfl)
    · have hstep : stepOr s (pipeline_enable_stream s c) =
          { s with requests := insertRequest s.requests c } := by
        unfold stepOr pipeline_enable_stream rs2_enable_pipeline_stream
        rw [h]
      rw [hstep]
      exact ih _ (Or.inr h)

/-- C6: for every sequence of `enable_stream` calls made before commit, the
effective StreamRequest for a (kind, index) key is exactly the last call
with that key — later calls overwrite earlier ones; keys without a call
keep whatever the starting StreamRequest Set held. -/
theorem enable_stream_last_write_wins :
    ∀ s calls k, (s.ctrl = .Created ∨ s.ctrl = .Configuring) →
      lookupRequest ((enableRun s calls).requests) k =
        match calls.reverse.find? (fun r => decide (requestKey r = k)) with
        | some r => some r
        | none => lookupRequest s.requests k := by
  intro s calls k h
  rw [enableRun_requests s calls h, lookupRequest_foldl_insert]

/-- A second request for the key (1, 0) with different parameters. -/
def overwriteRequest : StreamRequest :=
  { kind := 1, index := 0, width := 1280, height := 720, format := 2, framerate := 60 }

/-- A request with the distinct key (2, 0). -/
def otherRequest : StreamRequest :=
  { kind := 2, index := 0, width := 0, height := 0, format := 0, framerate := 0 }

/-- The demo `enable_stream` call sequence: two calls on key (1, 0) and one
on key (2, 0). -/
def demoCalls : List StreamRequest := [exampleRequest, otherRequest, overwriteRequest]

/-- Witness for C6: in the demo sequence the later (1, 0) call wins while
the (2, 0) call is unaffected. -/
theorem enable_stream_last_write_wins_witness :
    lookupRequest ((enableRun initState demoCalls).requests) (1, 0) =
      some overwriteRequest ∧
    lookupRequest ((enableRun initState demoCalls).requests) (2, 0) =
      some otherRequest :=
  ⟨(enable_stream_last_write_wins initState demoCalls (1, 0) (Or.inl rfl)).trans
      (by decide),
   (enable_stream_last_write_wins initState demoCalls (2, 0) (Or.inl rfl)).trans
      (by decide)⟩

/-- The Frame Synchronizer delivery-slot invariant: whatever the slot
holds passed the completeness check for the current active profiles and
tolerance. -/
def syncDeliveredComplete (st : SyncState) : Prop :=
  ∀ fs, st.delivered = some fs →
    isComplete st.activeProfiles st.tolerance fs = true

/-- `push` preserves the delivery-slot invariant: the slot is only ever
(re)filled with a candidate set that passed the completeness check. -/
theorem pushFrame_complete (st : SyncState) (f : RawFrame)
    (h : syncDeliveredComplete st) : syncDeliveredComplete (pushFrame st f) := by
  unfold pushFrame
  by_cases hc : isComplete st.activeProfiles st.tolerance (pushPending st f) = true
  · rw [if_pos hc]
    intro fs hfs
    injection hfs with h2
    rw [← h2]
    exact hc
  · rw [if_neg hc]
    intro fs hfs
    exact h fs hfs

/-- The capture feed preserves the delivery-slot invariant. -/
theorem captureRun_complete (frames : List RawFrame) (s : PipelineState)
    (h : syncDeliveredComplete s.sync) :
    syncDeliveredComplete (captureRun s frames).sync := by
  induction frames generalizing s with
  | nil => exact h
  | cons f fr ih =>
    unfold captureRun
    rw [List.foldl_cons]
    apply ih
    unfold pipeline_push
    by_cases hs : s.ctrl = .Streaming
    · rw [if_pos hs]
      exact pushFrame_complete s.sync f h
    · rw [if_neg hs]
      exact h

/-- Unpacking the completeness check: exactly one frame per active profile
and all pairwise timestamp differences within the tolerance. -/
theorem isComplete_spec (profiles : List StreamProfile) (tol : Nat)
    (fs : List RawFrame) (h : isComplete profiles tol fs = true) :
    (∀ p ∈ profiles,
        (fs.filter (fun f => decide (frameKey f = profileKey p))).length = 1) ∧
    (∀ a ∈ fs, ∀ b ∈ fs, a.timestamp - b.timestamp ≤ tol) := by
  unfold isComplete coversProfiles withinTolerance at h
  simp only [Bool.and_eq_true, List.all_eq_true, decide_eq_true_eq] at h
  exact ⟨h.1.1, h.2⟩

/-- A successful `wait_for_frames` drains exactly the Frame Set held by the
delivery slot. -/
theorem wait_ok_delivered {s : PipelineState} {t : Nat} {fs : List RawFrame}
    {s2 : PipelineState} (h : pipeline_wait_for_frames s t = .ok (fs, s2)) :
    s.sync.delivered = some fs := by
  unfold pipeline_wait_for_frames rs2_pipeline_wait_for_frames at h
  cases hc : s.ctrl <;> rw [hc] at h
  case Streaming =>
    cases hd : s.sync.delivered <;> rw [hd] at h
    · cases h
    · injection h with h2
      rw [Prod.mk.injEq] at h2
      rw [h2.1]
  all_goals cases h

/-- A `poll_for_frames` that returns true with a stored set read exactly
the Frame Set held by the delivery slot. -/
theorem poll_ok_true_delivered {s : PipelineState} {fOut : Option (List RawFrame)}
    {fs : List RawFrame} {s2 : PipelineState}
    (h : pipeline_poll_for_frames s fOut = .ok ((true, some fs), s2)) :
    s.sync.delivered = some fs := by
  unfold pipeline_poll_for_frames rs2_pipeline_poll_for_frames at h
  cases hc : s.ctrl <;> rw [hc] at h
  case Streaming =>
    cases hd : s.sync.delivered <;> rw [hd] at h
    · simp at h
    · injection h with h2
      rw [Prod.mk.injEq, Prod.mk.injEq] at h2
      have h3 := h2.1.2
      simp at h3
      rw [h3]
  all_goals cases h

/-- C3: starting from any pipeline whose delivery slot satisfies the
synchronizer invariant (as a freshly started pipeline does) and feeding any
raw frames, every Frame Set successfully returned by `wait_for_frames` —
and every Frame Set stored by a `poll_for_frames` returning true — contains
exactly one frame per currently active stream profile (none missing, none
duplicated) with all pairwise timestamp differences within the
synchronization tolerance. -/
theorem frameset_complete_and_synchronized :
    ∀ s0 frames, syncDeliveredComplete s0.sync →
      (∀ fs s2 t, pipeline_wait_for_frames (captureRun s0 frames) t = .ok (fs, s2) →
          (∀ p ∈ (captureRun s0 frames).sync.activeProfiles,
              (fs.filter (fun f => decide (frameKey f = profileKey p))).length = 1) ∧
          (∀ a ∈ fs, ∀ b ∈ fs,
              a.timestamp - b.timestamp ≤ (captureRun s0 frames).sync.tolerance)) ∧
      (∀ fs s2 fOut,
          pipeline_poll_for_frames (captureRun s0 frames) fOut = .ok ((true, some fs), s2) →
          (∀ p ∈ (captureRun s0 frames).sync.activeProfiles,
              (fs.filter (fun f => decide (frameKey f = profileKey p))).length = 1) ∧
          (∀ a ∈ fs, ∀ b ∈ fs,
              a.timestamp - b.timestamp ≤ (captureRun s0 frames).sync.tolerance)) := by
  intro s0 frames h0
  have hinv := captureRun_complete frames s0 h0
  constructor
  · intro fs s2 t hw
    exact isComplete_spec _ _ _ (hinv fs (wait_ok_delivered hw))
  · intro fs s2 fOut hp
    exact isComplete_spec _ _ _ (hinv fs (poll_ok_true_delivered hp))

/-- Witness for C3: pushing one matching frame into the freshly started
example pipeline completes a Frame Set; the set returned by
`wait_for_frames` covers the one active profile exactly once within
tolerance. -/
theorem frameset_complete_and_synchronized_witness :
    (∀ p ∈ (captureRun exampleStreamingState [exampleFrame]).sync.activeProfiles,
        (([exampleFrame]).filter (fun f => decide (frameKey f = profileKey p))).length = 1) ∧
    (∀ a ∈ [exampleFrame], ∀ b ∈ [exampleFrame],
        a.timestamp - b.timestamp ≤
          (captureRun exampleStreamingState [exampleFrame]).sync.tolerance) :=
  (frameset_complete_and_synchronized exampleStreamingState [exampleFrame]
      (fun _ h => nomatch h)).1
    [exampleFrame] exampleStreamingState 5000 rfl
